import Mathlib

/-!
Verification development for the agent-cli repository: a terminal chat
client with a command dispatcher, a mock/remote response source, a
line-history file, and an Azure agent-provisioning notebook.

The repository ships two READMEs and the notebook
`notebooks/agnet_service_creation.ipynb`; the chat loop itself
(`main.py`) is documented by the READMEs and by the specification but
its code is not present, so its dispatcher, loop and mock response
source are modelled here from the specification's contracts.  The
notebook's `initialize_resources` / `create_or_update_agent` functions
are embedded directly from their source.
-/

namespace AgentCli

/-- The roles a transcript message may carry
(spec section 3: role is user | assistant | system | tool). -/
inductive Role where
  | user
  | assistant
  | system
  | tool
  deriving DecidableEq, Repr

/-- Modelled from the spec: the per-turn `Message` record of the missing
`main.py` — role, text content, optional tool name (spec section 3). -/
structure Message where
  role : Role
  content : String
  toolName : Option String := none
  deriving DecidableEq, Repr

/-- The four reserved command keywords of the dispatcher
(README "Available Commands"; spec section 3). -/
inductive Cmd where
  | exitCmd
  | clearCmd
  | helpCmd
  | historyCmd
  deriving DecidableEq, Repr

/-- The closed set of reserved keywords (spec sections 3 and 4.1). -/
def reservedKeywords : List String := ["exit", "clear", "help", "history"]

/-- Result of dispatching one raw input line: ignored, a command, or a
chat message carrying the full original line. -/
inductive Dispatch where
  | ignore
  | command (c : Cmd)
  | chat (line : String)
  deriving DecidableEq, Repr

/-- Whitespace trimming of a raw line, character by character over the
string's character data. -/
def trimData (s : String) : List Char :=
  ((s.data.dropWhile Char.isWhitespace).reverse.dropWhile
    Char.isWhitespace).reverse

/-- The case-insensitive comparison key of a raw line: its trimmed
character data, lower-cased. -/
def normLine (s : String) : List Char :=
  (trimData s).map Char.toLower

/-- Modelled from the spec: the command dispatcher of the missing
`main.py` (spec section 4.1).  Trim whitespace; an empty trimmed line is
ignored; a trimmed line case-insensitively equal to a reserved keyword
dispatches that command; anything else is forwarded as a chat message
carrying the full untrimmed line. -/
def dispatch (line : String) : Dispatch :=
  let t := normLine line
  if t = [] then .ignore
  else if t = "exit".data then .command .exitCmd
  else if t = "clear".data then .command .clearCmd
  else if t = "help".data then .command .helpCmd
  else if t = "history".data then .command .historyCmd
  else .chat line

/-- Whether a raw line is dispatched as a chat message. -/
def isChatLine (line : String) : Bool :=
  match dispatch line with
  | .chat _ => true
  | _ => false

/-- The keyword a command corresponds to. -/
def cmdKeyword : Cmd → String
  | .exitCmd => "exit"
  | .clearCmd => "clear"
  | .helpCmd => "help"
  | .historyCmd => "history"

/-- In-memory state of one session: the append-only history-file lines
and the ordered in-memory transcript (spec section 3). -/
structure St where
  history : List String
  messages : List Message
  deriving DecidableEq, Repr

/-- The externally observable effect of processing one input line. -/
inductive Effect where
  | noEffect
  | redrawWelcome
  | printHistory (lines : List String)
  | exitProc (code : Nat)
  | rendered (msgs : List Message)
  deriving DecidableEq, Repr

/-- Number of recent history lines shown by the `history` command
(spec section 9 leaves N open; fixed to the documented example of 10). -/
def historyN : Nat := 10

/-- Modelled from the spec: one read-dispatch-respond-render cycle of
the missing `main.py` loop (spec sections 2, 4.1, 4.2, 7).  `send` is the
polymorphic response source returning the reply messages or a failure
description; a failure is converted into a single system-role message at
the call boundary and the loop continues. -/
def step (send : String → Except String (List Message)) (s : St)
    (line : String) : St × Effect :=
  match dispatch line with
  | .ignore => (s, .noEffect)
  | .command .exitCmd => (s, .exitProc 0)
  | .command .clearCmd => (s, .redrawWelcome)
  | .command .helpCmd => (s, .redrawWelcome)
  | .command .historyCmd =>
      (s, .printHistory (s.history.drop (s.history.length - historyN)))
  | .chat l =>
      let userMsg : Message := ⟨Role.user, l, none⟩
      match send l with
      | .ok replies =>
          (⟨s.history ++ [l], s.messages ++ userMsg :: replies⟩,
           .rendered (userMsg :: replies))
      | .error e =>
          let errMsg : Message := ⟨Role.system, e, none⟩
          (⟨s.history ++ [l], s.messages ++ [userMsg, errMsg]⟩,
           .rendered [userMsg, errMsg])

/-- Fold the step function over a whole sequence of input lines
(history-file evolution across a session). -/
def run (send : String → Except String (List Message)) (s : St)
    (lines : List String) : St :=
  lines.foldl (fun st l => (step send st l).1) s

/-! ### Mock response source -/

/-- Coarse input-length bucket of the mock variant (spec section 4.2). -/
inductive Bucket where
  | short
  | medium
  | long
  deriving DecidableEq, Repr

/-- Modelled from the spec: the mock variant's length bucketing of the
missing `main.py` (spec section 4.2: coarse short / medium / long
input-length buckets). -/
def bucketOf (msg : String) : Bucket :=
  if msg.length < 20 then .short
  else if msg.length < 100 then .medium
  else .long

/-- Modelled from the spec: the short-bucket canned reply templates. -/
def shortTemplates : List String :=
  ["Hello! How can I help you today?",
   "Hi there! What would you like to explore?",
   "Sure — tell me a bit more."]

/-- Modelled from the spec: the medium-bucket canned reply templates. -/
def mediumTemplates : List String :=
  ["That is an interesting question! Let me think about it...",
   "Here are some key points to consider: start with the basics, build incrementally, test early and often.",
   "Good question — would you like me to elaborate on any of these points?"]

/-- Modelled from the spec: the long-bucket canned reply templates. -/
def longTemplates : List String :=
  ["That is a detailed request! Let me break it down step by step for you.",
   "There is a lot to unpack here; I will summarise the main themes first.",
   "Thanks for the detailed context — here is a structured answer."]

/-- The fixed template table of a bucket (spec section 4.2). -/
def templatesFor : Bucket → List String
  | .short => shortTemplates
  | .medium => mediumTemplates
  | .long => longTemplates

/-- Modelled from the spec: the mock variant's deterministic reply
selection — picks from the fixed template table of the input's length
bucket, keyed by the input length (spec section 4.2). -/
def mockReply (msg : String) : String :=
  let ts := templatesFor (bucketOf msg)
  ts.getD (msg.length % ts.length) ""

/-- Modelled from the spec: the mock variant's artificial delay in
milliseconds, drawn from the documented bounded range of 0.5 to 2
seconds (README "realistic typing delays (0.5-2 seconds)"). -/
def mockDelayMs (seed : Nat) : Nat :=
  500 + seed % 1501

/-- Modelled from the spec: the mock variant's `send` — an artificial
bounded delay followed by a canned assistant reply (spec section 4.2). -/
def mockSend (seed : Nat) (msg : String) : Nat × Message :=
  (mockDelayMs seed, ⟨Role.assistant, mockReply msg, none⟩)

/-! ### Entry point and exit codes -/

/-- The response-source variant selected on the command line
(README part_000 "Agent Types": ai-agent or mock). -/
inductive Variant where
  | mock
  | remote
  deriving DecidableEq, Repr

/-- One keyboard-level input event of the read loop. -/
inductive InputEvent where
  | line (s : String)
  | ctrlC
  deriving DecidableEq, Repr

/-- Modelled from the spec: the read loop of the missing `main.py`,
consuming input events until an `exit` command or a Ctrl-C terminates
the process (spec sections 5 and 6).  Returns `some code` when the
process terminates with that exit code, `none` when input is exhausted
without an explicit termination. -/
def runLoop (send : String → Except String (List Message)) (s : St) :
    List InputEvent → Option Nat
  | [] => none
  | .ctrlC :: _ => some 0
  | .line l :: rest =>
      match step send s l with
      | (_, .exitProc c) => some c
      | (s', _) => runLoop send s' rest

/-- Modelled from the spec: process startup and main loop of the missing
`main.py` (spec sections 6 and 7).  When the remote variant is selected
and its required remote configuration is absent, startup fails with a
non-zero exit code before the read loop; otherwise the read loop runs. -/
def main (v : Variant) (remoteConfig : Option String)
    (send : String → Except String (List Message))
    (events : List InputEvent) : Except Nat (Option Nat) :=
  match v, remoteConfig with
  | .remote, none => .error 1
  | _, _ => .ok (runLoop send ⟨[], []⟩ events)

end AgentCli

namespace Notebook

/-!
Embedding of `notebooks/agnet_service_creation.ipynb`: the
`create_or_update_agent` and `initialize_resources` functions.  The
Azure SDK client is modelled as a record of effectful operation results;
Python exceptions are `Except String`; `os.environ` is the `Env` record,
returned alongside the agent because `initialize_resources` mutates
`AZURE_AI_AGENT_ID`.
-/

/-- An Azure AI agent as the notebook observes it: its id and name. -/
structure AgentM where
  id : String
  name : String
  deriving DecidableEq, Repr

/-- The environment variables the notebook reads and writes. -/
structure Env where
  agentId : Option String
  agentName : Option String
  deploymentName : Option String
  deriving DecidableEq, Repr

/-- The `AIProjectClient.agents` operations used by the notebook, each
modelled by the result it would produce: `getAgent` is `get_agent`,
`listAgents` the elements yielded by `list_agents`, `createAgent` is
`create_agent` applied to a model deployment and a name, `updateAgent`
is `update_agent` applied to an agent id, a model deployment and a
name. -/
structure Client where
  getAgent : String → Except String AgentM
  listAgents : List AgentM
  createAgent : String → String → Except String AgentM
  updateAgent : String → String → String → Except String AgentM

/-- `create_or_update_agent` from the notebook: with no agent, create
one from `AZURE_AI_AGENT_DEPLOYMENT_NAME` and `AZURE_AI_AGENT_NAME`;
with an agent, update it under its id.  A missing environment variable
is Python's `KeyError`. -/
def create_or_update_agent (agent : Option AgentM) (c : Client)
    (env : Env) : Except String AgentM :=
  match agent with
  | none =>
      match env.deploymentName, env.agentName with
      | some mdl, some nm => c.createAgent mdl nm
      | none, _ => .error "KeyError: AZURE_AI_AGENT_DEPLOYMENT_NAME"
      | some _, none => .error "KeyError: AZURE_AI_AGENT_NAME"
  | some a =>
      match env.deploymentName, env.agentName with
      | some mdl, some nm => c.updateAgent a.id mdl nm
      | none, _ => .error "KeyError: AZURE_AI_AGENT_DEPLOYMENT_NAME"
      | some _, none => .error "KeyError: AZURE_AI_AGENT_NAME"

/-- The notebook's `async for agent_object in agent_list` search: the
first listed agent whose name equals `AZURE_AI_AGENT_NAME`; reading the
environment variable inside the loop body raises `KeyError` when it is
missing and an agent is examined. -/
def findByName (agents : List AgentM) (env : Env) :
    Except String (Option AgentM) :=
  match agents with
  | [] => .ok none
  | a :: rest =>
      match env.agentName with
      | none => .error "KeyError: AZURE_AI_AGENT_NAME"
      | some nm =>
          if a.name = nm then .ok (some a) else findByName rest env

/-- The second and third strategies of `initialize_resources`: search
the agent list for `AZURE_AI_AGENT_NAME`, setting `AZURE_AI_AGENT_ID`
and re-fetching plus updating the found agent; otherwise create a new
agent and record its id in `AZURE_AI_AGENT_ID`. -/
def searchOrCreate (c : Client) (env : Env) :
    Except String (AgentM × Env) :=
  match findByName c.listAgents env with
  | .error e => .error e
  | .ok (some found) =>
      let env' : Env := { env with agentId := some found.id }
      match c.getAgent found.id with
      | .error e => .error e
      | .ok ag =>
          match create_or_update_agent (some ag) c env' with
          | .error e => .error e
          | .ok ag2 => .ok (ag2, env')
  | .ok none =>
      match create_or_update_agent none c env with
      | .error e => .error e
      | .ok ag => .ok (ag, { env with agentId := some ag.id })

/-- The first strategy of `initialize_resources` with its inner
`try`/`except`: retrieve the agent by `AZURE_AI_AGENT_ID` and update
it; on any failure inside the `try` block, fall through to the search
and creation strategies. -/
def tryById (c : Client) (env : Env) : Except String (AgentM × Env) :=
  match env.agentId with
  | some aid =>
      match c.getAgent aid with
      | .ok ag =>
          match create_or_update_agent (some ag) c env with
          | .ok ag2 => .ok (ag2, env)
          | .error _ => searchOrCreate c env
      | .error _ => searchOrCreate c env
  | none => searchOrCreate c env

/-- `initialize_resources` from the notebook: run the three strategies
in order; any exception escaping them is re-raised as a `RuntimeError`
wrapping the underlying failure. -/
def initialize_resources (c : Client) (env : Env) :
    Except String (AgentM × Env) :=
  match tryById c env with
  | .ok r => .ok r
  | .error e => .error ("Failed to create the agent: " ++ e)

/-- The first strategy fails and control falls through to the search:
no `AZURE_AI_AGENT_ID` is set, or retrieval by it fails, or the update
of the retrieved agent fails. -/
def byIdFails (c : Client) (env : Env) : Prop :=
  env.agentId = none ∨
  ∃ aid, env.agentId = some aid ∧
    ((∃ e, c.getAgent aid = .error e) ∨
     (∃ ag e, c.getAgent aid = .ok ag ∧
        create_or_update_agent (some ag) c env = .error e))

end Notebook

namespace Fixtures

open AgentCli Notebook

/-- A response source that wraps the mock reply in the loop's `send`
interface. -/
def mockSendE (msg : String) : Except String (List Message) :=
  .ok [(mockSend 0 msg).2]

/-- A response source whose remote call always fails. -/
def sendFail (_ : String) : Except String (List Message) :=
  .error "connection error: service unavailable"

/-- The fresh session state. -/
def emptySt : St := ⟨[], []⟩

/-- A concrete client for evaluating the notebook embedding: retrieval
by id fails, the agent list is empty, creation succeeds. -/
def clientW : Client where
  getAgent := fun _ => .error "agent not found"
  listAgents := []
  createAgent := fun _ nm => .ok ⟨"asst_new", nm⟩
  updateAgent := fun aid _ nm => .ok ⟨aid, nm⟩

/-- A concrete environment with no `AZURE_AI_AGENT_ID` set. -/
def envW : Env :=
  ⟨none, some "my_cool_agent", some "gpt-4.1-mini"⟩

end Fixtures

namespace AgentCli

/-- The dispatcher only ever forwards the original line as the chat
payload. -/
theorem dispatch_chat_eq (l x : String) (h : dispatch l = .chat x) :
    x = l := by
  simp only [dispatch] at h
  repeat' split at h
  all_goals simp_all

/-- The history-file effect of one step: an accepted chat line is
appended, anything else leaves the file unchanged. -/
theorem step_history (send : String → Except String (List Message))
    (s : St) (l : String) :
    (step send s l).1.history =
      if isChatLine l then s.history ++ [l] else s.history := by
  cases hd : dispatch l with
  | ignore => simp [step, isChatLine, hd]
  | command c => cases c <;> simp [step, isChatLine, hd]
  | chat x =>
      have hx : x = l := dispatch_chat_eq l x hd
      subst hx
      cases hs : send x with
      | error e => simp [step, isChatLine, hd, hs]
      | ok replies => simp [step, isChatLine, hd, hs]

/-- The only exit effect a step can produce is exit code 0, and it
leaves the state untouched. -/
theorem step_exit (send : String → Except String (List Message))
    (s : St) (l : String) (c : Nat)
    (h : (step send s l).2 = .exitProc c) :
    c = 0 ∧ (step send s l).1 = s ∧ dispatch l = .command .exitCmd := by
  cases hd : dispatch l with
  | ignore => simp [step, hd] at h
  | command c' =>
      cases c' <;> simp [step, hd] at h ⊢
      omega
  | chat x =>
      cases hs : send x with
      | error e => simp [step, hd, hs] at h
      | ok replies => simp [step, hd, hs] at h

/-- C1: a raw line whose whitespace-trimmed form case-insensitively
equals a reserved keyword dispatches that command — exit terminates
with code 0, clear and help redraw the welcome panel, history prints
the recent stored history lines — and the line is never forwarded as a
chat message. -/
theorem C1_reserved_keyword_dispatch
    (send : String → Except String (List Message)) (s : St)
    (line : String) (c : Cmd)
    (h : normLine line = (cmdKeyword c).data) :
    dispatch line = .command c ∧
    (∀ l', dispatch line ≠ Dispatch.chat l') ∧
    step send s line =
      (s, match c with
          | .exitCmd => .exitProc 0
          | .clearCmd => .redrawWelcome
          | .helpCmd => .redrawWelcome
          | .historyCmd =>
              .printHistory
                (s.history.drop (s.history.length - historyN))) := by
  have hd : dispatch line = .command c := by
    cases c <;> simp only [cmdKeyword] at h <;>
      simp only [dispatch] <;> rw [h] <;> rfl
  refine ⟨hd, ?_, ?_⟩
  · intro l' hc
    rw [hd] at hc
    exact Dispatch.noConfusion hc
  · cases c <;> simp only [step, hd]

/-- C1 witness: the line `"  EXIT "` dispatches the exit command. -/
theorem C1_reserved_keyword_dispatch_witness :
    dispatch "  EXIT " = Dispatch.command Cmd.exitCmd ∧
    (∀ l', dispatch "  EXIT " ≠ Dispatch.chat l') ∧
    step Fixtures.mockSendE Fixtures.emptySt "  EXIT " =
      (Fixtures.emptySt, Effect.exitProc 0) :=
  C1_reserved_keyword_dispatch Fixtures.mockSendE Fixtures.emptySt
    "  EXIT " .exitCmd (by decide)

/-- C2: a line with non-blank trimmed form that case-insensitively
equals no reserved keyword is forwarded verbatim as a chat message: the
dispatcher emits the full unaltered line, it is appended to history
as-is, and the rendered user message carries exactly that line. -/
theorem C2_non_keyword_forwarded_verbatim
    (send : String → Except String (List Message)) (s : St)
    (line : String)
    (h1 : trimData line ≠ [])
    (h2 : normLine line ∉ reservedKeywords.map String.data) :
    dispatch line = .chat line ∧
    (step send s line).1.history = s.history ++ [line] ∧
    ∃ replies, (step send s line).2 =
      .rendered (⟨Role.user, line, none⟩ :: replies) := by
  have ht : normLine line ≠ [] := by
    simp only [normLine, ne_eq, List.map_eq_nil_iff]
    exact h1
  simp only [reservedKeywords, List.map, List.mem_cons,
    List.not_mem_nil, or_false, not_or] at h2
  obtain ⟨hA, hB, hC, hD⟩ := h2
  have hd : dispatch line = .chat line := by
    simp only [dispatch]
    rw [if_neg ht, if_neg hA, if_neg hB, if_neg hC, if_neg hD]
  refine ⟨hd, ?_, ?_⟩
  · cases hs : send line with
    | error e => simp [step, hd, hs]
    | ok replies => simp [step, hd, hs]
  · cases hs : send line with
    | error e =>
        exact ⟨[⟨Role.system, e, none⟩], by simp [step, hd, hs]⟩
    | ok replies => exact ⟨replies, by simp [step, hd, hs]⟩

/-- C2 witness: `" exit now"` starts with a keyword but is not one, so
it is forwarded verbatim. -/
theorem C2_non_keyword_forwarded_verbatim_witness :
    dispatch " exit now" = Dispatch.chat " exit now" ∧
    (step Fixtures.mockSendE Fixtures.emptySt " exit now").1.history =
      Fixtures.emptySt.history ++ [" exit now"] ∧
    ∃ replies,
      (step Fixtures.mockSendE Fixtures.emptySt " exit now").2 =
        .rendered (⟨Role.user, " exit now", none⟩ :: replies) :=
  C2_non_keyword_forwarded_verbatim Fixtures.mockSendE Fixtures.emptySt
    " exit now" (by decide) (by decide)

/-- C3: an empty or whitespace-only line is ignored: no dispatch of a
command, no message produced, no history append — the state is
returned unchanged with no effect, so the loop just re-prompts. -/
theorem C3_blank_line_ignored
    (send : String → Except String (List Message)) (s : St)
    (line : String) (h : trimData line = []) :
    dispatch line = .ignore ∧ step send s line = (s, .noEffect) := by
  have ht : normLine line = [] := by simp [normLine, h]
  have hd : dispatch line = .ignore := by
    simp only [dispatch]
    rw [if_pos ht]
  exact ⟨hd, by simp only [step, hd]⟩

/-- C3 witness: a whitespace-only line is ignored. -/
theorem C3_blank_line_ignored_witness :
    dispatch "   " = Dispatch.ignore ∧
    step Fixtures.mockSendE Fixtures.emptySt "   " =
      (Fixtures.emptySt, Effect.noEffect) :=
  C3_blank_line_ignored Fixtures.mockSendE Fixtures.emptySt "   "
    (by decide)

/-- C4: after processing any sequence of input lines, the history file
holds exactly its previous contents followed by the accepted chat
lines, one line per accepted submission, in submission order — the
file is append-only and existing lines are never reordered or
rewritten. -/
theorem C4_history_append_only
    (send : String → Except String (List Message))
    (lines : List String) : ∀ s : St,
    (run send s lines).history =
      s.history ++ lines.filter (fun l => isChatLine l) := by
  induction lines with
  | nil => intro s; simp [run]
  | cons l rest ih =>
      intro s
      have hr : run send s (l :: rest) = run send (step send s l).1 rest :=
        rfl
      rw [hr, ih, step_history]
      cases hc : isChatLine l <;> simp [hc, List.filter_cons]

/-- C4 witness: a session with one chat line, one command and one blank
line appends exactly the chat line. -/
theorem C4_history_append_only_witness :
    (run Fixtures.mockSendE Fixtures.emptySt
        ["hi", " Exit ", "   "]).history =
      Fixtures.emptySt.history ++
        (["hi", " Exit ", "   "].filter (fun l => isChatLine l)) :=
  C4_history_append_only Fixtures.mockSendE ["hi", " Exit ", "   "]
    Fixtures.emptySt

/-- Every bucket's template table has exactly three entries. -/
theorem templatesFor_length (b : Bucket) : (templatesFor b).length = 3 := by
  cases b <;> rfl

/-- C5: the mock reply to any input is drawn from the template set of
the input's own length bucket, and never lies in another bucket's
template set. -/
theorem C5_mock_reply_stays_in_bucket (msg : String) :
    mockReply msg ∈ templatesFor (bucketOf msg) ∧
    ∀ b : Bucket, b ≠ bucketOf msg →
      mockReply msg ∉ templatesFor b := by
  have h3 : msg.length % 3 = 0 ∨ msg.length % 3 = 1 ∨
      msg.length % 3 = 2 := by omega
  constructor
  · simp only [mockReply, templatesFor_length]
    cases hb : bucketOf msg <;> rcases h3 with h | h | h <;>
      rw [h] <;> decide
  · intro b hbne
    simp only [mockReply, templatesFor_length]
    cases hb : bucketOf msg <;> rw [hb] at hbne <;> cases b <;>
      first
        | exact absurd rfl hbne
        | (rcases h3 with h | h | h <;> rw [h] <;> decide)

/-- C5 witness: the short input `"hi"` draws from the short bucket and
from no other bucket. -/
theorem C5_mock_reply_stays_in_bucket_witness :
    mockReply "hi" ∈ templatesFor (bucketOf "hi") ∧
    mockReply "hi" ∉ templatesFor Bucket.medium ∧
    mockReply "hi" ∉ templatesFor Bucket.long :=
  ⟨(C5_mock_reply_stays_in_bucket "hi").1,
   (C5_mock_reply_stays_in_bucket "hi").2 Bucket.medium (by decide),
   (C5_mock_reply_stays_in_bucket "hi").2 Bucket.long (by decide)⟩

/-- C6: a failing remote call on an accepted chat line is caught at the
call boundary: the step renders exactly the user message followed by
one system-role error message, the state stays ready for the next
input, and the effect never terminates the process. -/
theorem C6_remote_failure_one_system_message
    (send : String → Except String (List Message)) (s : St)
    (line x e : String)
    (hd : dispatch line = .chat x) (he : send x = .error e) :
    step send s line =
      (⟨s.history ++ [x],
        s.messages ++
          [⟨Role.user, x, none⟩, ⟨Role.system, e, none⟩]⟩,
       .rendered [⟨Role.user, x, none⟩, ⟨Role.system, e, none⟩]) ∧
    (([(⟨Role.user, x, none⟩ : Message), ⟨Role.system, e, none⟩].filter
        (fun m => m.role == Role.system)).length = 1) ∧
    (∀ c, (step send s line).2 ≠ .exitProc c) := by
  have hstep : step send s line =
      (⟨s.history ++ [x],
        s.messages ++
          [⟨Role.user, x, none⟩, ⟨Role.system, e, none⟩]⟩,
       .rendered [⟨Role.user, x, none⟩, ⟨Role.system, e, none⟩]) := by
    simp [step, hd, he]
  refine ⟨hstep, rfl, ?_⟩
  intro c hc
  rw [hstep] at hc
  exact Effect.noConfusion hc

/-- C6 witness: a failing send on the line `"hello"` yields one
system-role error message and no process exit. -/
theorem C6_remote_failure_one_system_message_witness :
    step Fixtures.sendFail Fixtures.emptySt "hello" =
      (⟨["hello"],
        [⟨Role.user, "hello", none⟩,
         ⟨Role.system, "connection error: service unavailable", none⟩]⟩,
       .rendered
         [⟨Role.user, "hello", none⟩,
          ⟨Role.system, "connection error: service unavailable",
            none⟩]) ∧
    (([(⟨Role.user, "hello", none⟩ : Message),
       ⟨Role.system, "connection error: service unavailable",
         none⟩].filter (fun m => m.role == Role.system)).length = 1) ∧
    (step Fixtures.sendFail Fixtures.emptySt "hello").2 ≠
      Effect.exitProc 0 := by
  obtain ⟨h1, h2, h3⟩ :=
    C6_remote_failure_one_system_message Fixtures.sendFail
      Fixtures.emptySt "hello" "hello"
      "connection error: service unavailable" (by decide) rfl
  exact ⟨h1, h2, h3 0⟩

/-- Only exit code 0 can come out of the read loop. -/
theorem runLoop_code_zero (send : String → Except String (List Message)) :
    ∀ (evs : List InputEvent) (s : St) (c : Nat),
      runLoop send s evs = some c → c = 0 := by
  intro evs
  induction evs with
  | nil => intro s c h; simp [runLoop] at h
  | cons e rest ih =>
      intro s c h
      cases e with
      | ctrlC =>
          simp [runLoop] at h
          omega
      | line l =>
          rcases hst : step send s l with ⟨s', eff⟩
          simp only [runLoop] at h
          rw [hst] at h
          cases eff with
          | exitProc code =>
              have h2 : (step send s l).2 = .exitProc code := by
                rw [hst]
              have := (step_exit send s l code h2).1
              simp only [Option.some.injEq] at h
              omega
          | noEffect => exact ih s' c h
          | redrawWelcome => exact ih s' c h
          | printHistory lines => exact ih s' c h
          | rendered msgs => exact ih s' c h

/-- C7: startup with the remote variant and no remote configuration
fails with a non-zero exit code without running the read loop; the read
loop exits with code 0 only ever, and does so on a clean Ctrl-C or an
explicit `exit` command, which appends nothing. -/
theorem C7_exit_codes (send : String → Except String (List Message)) :
    (∀ events : List InputEvent,
        main .remote none send events = .error 1) ∧
    (∀ (s : St) (evs : List InputEvent) (c : Nat),
        runLoop send s evs = some c → c = 0) ∧
    (∀ (s : St) (rest : List InputEvent),
        runLoop send s (.ctrlC :: rest) = some 0) ∧
    (∀ (s : St) (rest : List InputEvent) (line : String),
        normLine line = "exit".data →
        runLoop send s (.line line :: rest) = some 0 ∧
        (step send s line).1 = s) := by
  refine ⟨fun events => rfl, fun s evs => runLoop_code_zero send evs s,
    fun s rest => rfl, fun s rest line h => ?_⟩
  have hd : dispatch line = .command .exitCmd := by
    simp only [dispatch]
    rw [h]
    rfl
  have hstep : step send s line = (s, .exitProc 0) := by
    simp only [step, hd]
  constructor
  · simp only [runLoop]
    rw [hstep]
  · rw [hstep]

/-- C7 witness: concrete startup failure, Ctrl-C exit and `exit`
command exit. -/
theorem C7_exit_codes_witness :
    main .remote none Fixtures.mockSendE [] = .error 1 ∧
    runLoop Fixtures.mockSendE Fixtures.emptySt [.ctrlC] = some 0 ∧
    (runLoop Fixtures.mockSendE Fixtures.emptySt [.line "exit"] =
        some 0 ∧
     (step Fixtures.mockSendE Fixtures.emptySt "exit").1 =
        Fixtures.emptySt) :=
  ⟨(C7_exit_codes Fixtures.mockSendE).1 [],
   (C7_exit_codes Fixtures.mockSendE).2.2.1 Fixtures.emptySt [],
   (C7_exit_codes Fixtures.mockSendE).2.2.2 Fixtures.emptySt []
     "exit" (by decide)⟩

/-- C8: every mock send call delays between 500 and 2000 milliseconds
(the documented 0.5 to 2 seconds), and the short input `"hi"` receives
a reply from the short-bucket template set. -/
theorem C8_mock_delay_bounded (seed : Nat) (msg : String) :
    (500 ≤ (mockSend seed msg).1 ∧ (mockSend seed msg).1 ≤ 2000) ∧
    bucketOf "hi" = Bucket.short ∧
    (mockSend seed "hi").2.content ∈ templatesFor Bucket.short := by
  refine ⟨⟨?_, ?_⟩, rfl, ?_⟩
  · exact Nat.le_add_right 500 (seed % 1501)
  · have h := Nat.mod_lt seed (show 0 < 1501 by norm_num)
    simp only [mockSend, mockDelayMs]
    omega
  · show mockReply "hi" ∈ templatesFor Bucket.short
    decide

/-- C8 witness: delay bounds and the short-bucket reply at seed 0 and
input `"hi"`. -/
theorem C8_mock_delay_bounded_witness :
    (500 ≤ (mockSend 0 "hi").1 ∧ (mockSend 0 "hi").1 ≤ 2000) ∧
    bucketOf "hi" = Bucket.short ∧
    (mockSend 0 "hi").2.content ∈ templatesFor Bucket.short :=
  C8_mock_delay_bounded 0 "hi"

/-- C9: every message role is one of the four enumerated roles, and a
step only ever appends to the in-memory message list — messages already
present are never mutated or removed. -/
theorem C9_roles_enumerated_messages_append (m : Message)
    (send : String → Except String (List Message)) (s : St)
    (line : String) :
    (m.role = Role.user ∨ m.role = Role.assistant ∨
     m.role = Role.system ∨ m.role = Role.tool) ∧
    ∃ tail, (step send s line).1.messages = s.messages ++ tail := by
  constructor
  · cases hm : m.role <;> simp
  · cases hd : dispatch line with
    | ignore => exact ⟨[], by simp [step, hd]⟩
    | command c => cases c <;> exact ⟨[], by simp [step, hd]⟩
    | chat x =>
        cases hs : send x with
        | error e =>
            exact ⟨[⟨Role.user, x, none⟩, ⟨Role.system, e, none⟩],
              by simp [step, hd, hs]⟩
        | ok replies =>
            exact ⟨⟨Role.user, x, none⟩ :: replies,
              by simp [step, hd, hs]⟩

end AgentCli

namespace Notebook

/-- C10: `initialize_resources` either returns an agent or fails with a
`RuntimeError` wrapping the underlying failure, trying in order:
retrieval by `AZURE_AI_AGENT_ID` (falling through on any failure of
that strategy), search of the agent list by `AZURE_AI_AGENT_NAME`, and
creation of a new agent; whenever an agent is found by name or newly
created, `AZURE_AI_AGENT_ID` is set to that agent's id. -/
theorem C10_initialize_resources_strategies (c : Client) (env : Env) :
    ((∃ a env', initialize_resources c env = .ok (a, env')) ∨
     (∃ e, initialize_resources c env =
        .error ("Failed to create the agent: " ++ e))) ∧
    (∀ aid ag ag2, env.agentId = some aid → c.getAgent aid = .ok ag →
       create_or_update_agent (some ag) c env = .ok ag2 →
       initialize_resources c env = .ok (ag2, env)) ∧
    (∀ found, byIdFails c env →
       findByName c.listAgents env = .ok (some found) →
       ∀ a env', initialize_resources c env = .ok (a, env') →
         env'.agentId = some found.id) ∧
    (byIdFails c env → findByName c.listAgents env = .ok none →
       ∀ ag, create_or_update_agent none c env = .ok ag →
         initialize_resources c env =
           .ok (ag, { env with agentId := some ag.id })) := by
  have hTfail : byIdFails c env →
      tryById c env = searchOrCreate c env := by
    intro hfail
    rcases hfail with h0 | ⟨aid, ha, hcase⟩
    · simp [tryById, h0]
    · rcases hcase with ⟨e, hge⟩ | ⟨ag0, e, hok, hupd⟩
      · simp [tryById, ha, hge]
      · simp [tryById, ha, hok, hupd]
  refine ⟨?_, ?_, ?_, ?_⟩
  · cases h : tryById c env with
    | error e =>
        exact Or.inr ⟨e, by simp [initialize_resources, h]⟩
    | ok r =>
        exact Or.inl ⟨r.1, r.2, by simp [initialize_resources, h]⟩
  · intro aid ag ag2 h1 h2 h3
    simp [initialize_resources, tryById, h1, h2, h3]
  · intro found hfail hfind a env' hres
    have hT := hTfail hfail
    simp only [initialize_resources, hT, searchOrCreate, hfind] at hres
    rcases hga : c.getAgent found.id with e | ag
    · simp [hga] at hres
    · simp only [hga] at hres
      rcases hcu : create_or_update_agent (some ag) c
          { env with agentId := some found.id } with e2 | ag2
      · simp [hcu] at hres
      · simp only [hcu, Except.ok.injEq, Prod.mk.injEq] at hres
        rw [← hres.2]
  · intro hfail hfind ag hcu
    have hT := hTfail hfail
    simp [initialize_resources, hT, searchOrCreate, hfind, hcu]

/-- C10 witness: with no `AZURE_AI_AGENT_ID`, an empty agent list and a
succeeding creation, `initialize_resources` creates the agent and
records its id in the environment. -/
theorem C10_initialize_resources_strategies_witness :
    initialize_resources Fixtures.clientW Fixtures.envW =
      .ok (⟨"asst_new", "my_cool_agent"⟩,
           { Fixtures.envW with agentId := some "asst_new" }) :=
  (C10_initialize_resources_strategies Fixtures.clientW
      Fixtures.envW).2.2.2 (Or.inl rfl) rfl
    ⟨"asst_new", "my_cool_agent"⟩ rfl

end Notebook

namespace AgentCli

/-- C9 witness: a concrete tool message has an enumerated role and the
step on line `"hi"` only appends messages. -/
theorem C9_roles_enumerated_messages_append_witness :
    ((⟨Role.tool, "create_file", some "create_file"⟩ : Message).role =
        Role.user ∨
     (⟨Role.tool, "create_file", some "create_file"⟩ : Message).role =
        Role.assistant ∨
     (⟨Role.tool, "create_file", some "create_file"⟩ : Message).role =
        Role.system ∨
     (⟨Role.tool, "create_file", some "create_file"⟩ : Message).role =
        Role.tool) ∧
    ∃ tail,
      (step Fixtures.mockSendE Fixtures.emptySt "hi").1.messages =
        Fixtures.emptySt.messages ++ tail :=
  C9_roles_enumerated_messages_append
    ⟨Role.tool, "create_file", some "create_file"⟩
    Fixtures.mockSendE Fixtures.emptySt "hi"

end AgentCli
